import Mathlib

/-!
Shallow embedding of `src/app/api/simular/route.ts` : a Monte-Carlo GBM
price simulator with per-step statistics, a 95% VaR summary, and request
validation.  JavaScript numbers met by the validator are modelled as an
inductive `JSNum` (either `nan` or an exact rational), with the JS
comparison semantics in which every comparison involving NaN is false.
The simulation itself is modelled over the reals, with the stream of
standard-normal draws abstracted as a function `noise : ℕ → ℝ` indexed
by draw order (outer loop over steps, inner loop over trajectories).
-/

deriving instance DecidableEq for Except

namespace RiskSim

/-- A JavaScript number as seen by the validator: either NaN or an exact
value (modelled as a rational). -/
inductive JSNum where
  | nan : JSNum
  | num : ℚ → JSNum
deriving DecidableEq

/-- A JSON value in one of the body fields: a number, or anything else
(`undefined`, a string, ...), which fails the `typeof x === "number"` check. -/
inductive JSVal where
  | num : JSNum → JSVal
  | other : JSVal
deriving DecidableEq

/-- `typeof x === "number"`. -/
def JSVal.isNumber : JSVal → Bool
  | .num _ => true
  | .other => false

/-- JS `<` on numbers: false whenever either side is NaN. -/
def JSNum.lt : JSNum → JSNum → Bool
  | .num a, .num b => a < b
  | _, _ => false

/-- JS `<=` on numbers: false whenever either side is NaN. -/
def JSNum.le : JSNum → JSNum → Bool
  | .num a, .num b => a ≤ b
  | _, _ => false

/-- JS `>` on numbers: false whenever either side is NaN. -/
def JSNum.gt : JSNum → JSNum → Bool
  | .num a, .num b => b < a
  | _, _ => false

/-- The parsed request body (`Partial<Body>`): each of the four fields may
be a number or some other JSON value. -/
structure RequestBody where
  precio_actual : JSVal
  volatilidad : JSVal
  dias : JSVal
  simulaciones : JSVal
deriving DecidableEq

/-- Which validation check rejected the request; each constructor stands
for one distinct 400-response message of `POST`. -/
inductive ValidationError where
  | typeInvalid : ValidationError
  | precioInvalid : ValidationError
  | volatilidadInvalid : ValidationError
  | diasInvalid : ValidationError
  | simulacionesInvalid : ValidationError
deriving DecidableEq

/-- The four numeric parameters handed to the simulation engine once
validation passes (they may still be NaN). -/
structure EngineInput where
  precio_actual : JSNum
  volatilidad : JSNum
  dias : JSNum
  simulaciones : JSNum
deriving DecidableEq

/-- The validation prefix of `POST` (route.ts lines 42-80): the `typeof`
check on all four fields, then the early-return range checks on
`precio_actual`, `volatilidad`, `dias`, `simulaciones`, in that order. -/
def validate (b : RequestBody) : Except ValidationError EngineInput :=
  match b.precio_actual, b.volatilidad, b.dias, b.simulaciones with
  | .num p, .num v, .num d, .num s =>
    if p.le (.num 0) then .error .precioInvalid
    else if v.lt (.num 0) || v.gt (.num 200) then .error .volatilidadInvalid
    else if d.lt (.num 1) || d.gt (.num 365) then .error .diasInvalid
    else if s.lt (.num 100) || s.gt (.num 10000) then .error .simulacionesInvalid
    else .ok ⟨p, v, d, s⟩
  | _, _, _, _ => .error .typeInvalid

/-- A request body whose four fields are all plain (non-NaN) numbers. -/
def numsBody (p v d s : ℚ) : RequestBody :=
  ⟨.num (.num p), .num (.num v), .num (.num d), .num (.num s)⟩

/-! ## Statistics (`mean`, `percentile`), generic over an ordered field

The two helpers of route.ts act on arrays of JS numbers; we state them
over any linear ordered field with a floor, instantiated at ℚ for
executable checks and at ℝ inside the engine model. -/

variable {α : Type} [LinearOrderedField α] [FloorRing α]

/-- `mean` (route.ts lines 19-21): sum of the values divided by the count. -/
def mean (values : List α) : α :=
  values.sum / (values.length : α)

/-- `percentile` (route.ts lines 23-34): `none` models the `NaN` returned
for an empty input; otherwise sort ascending, take the fractional rank
`pos = (p/100)·(n−1)` and linearly interpolate between the neighbouring
order statistics. -/
def percentile (values : List α) (p : α) : Option α :=
  match values with
  | [] => none
  | _ :: _ =>
    let sorted := List.insertionSort (· ≤ ·) values
    let pos : α := (p / 100) * ((sorted.length : α) - 1)
    let lower : ℤ := ⌊pos⌋
    let upper : ℤ := ⌈pos⌉
    if lower = upper then some (sorted.getD lower.toNat 0)
    else
      let weight : α := pos - (lower : α)
      some (sorted.getD lower.toNat 0 * (1 - weight) + sorted.getD upper.toNat 0 * weight)

/-- Modelled from the spec (§4.3), word for word: "sort the column
ascending; compute fractional rank `pos = (p/100)·(n−1)`; let
`lower = floor(pos)`, `upper = ceil(pos)`; if `lower == upper` return
`sorted[lower]` exactly; otherwise linearly interpolate:
`sorted[lower]·(1−w) + sorted[upper]·w` where `w = pos − lower`", with
the empty column signalling "undefined". Kept as a separate definition
so the source function can be compared against it. -/
def percentileSpec (values : List α) (p : α) : Option α :=
  if values.isEmpty then none
  else
    let sorted := List.insertionSort (· ≤ ·) values
    let n : α := (values.length : α)
    let pos : α := (p / 100) * (n - 1)
    let lower : ℤ := ⌊pos⌋
    let upper : ℤ := ⌈pos⌉
    if lower = upper then some (sorted.getD lower.toNat 0)
    else
      let w : α := pos - (lower : α)
      some (sorted.getD lower.toNat 0 * (1 - w) + sorted.getD upper.toNat 0 * w)

/-! ## The GBM path simulator (route.ts lines 82-108), over ℝ

The stream of Box-Muller draws is abstracted as `noise : ℕ → ℝ`, indexed
in the order `gaussianRandom()` is called: the outer loop runs over steps
`paso = 1..pasosTiempo`, the inner over trajectories `i`, so the draw used
at `(paso, i)` is `noise ((paso - 1) * numTrayectorias + i)`. -/

/-- `deltaT = 1 / 252`. -/
noncomputable def deltaT : ℝ := 1 / 252

/-- `volDiaria = volatilidad / 100 / Math.sqrt(252)`. -/
noncomputable def volDiaria (volatilidad : ℝ) : ℝ :=
  volatilidad / 100 / Real.sqrt 252

/-- The price of trajectory `i` after `t` steps: index 0 holds `valorBase`
(the initial `fill`), and each later cell is the previous one times
`exp((tasaInteres − 0.5·volD²)·deltaT + volD·sqrt(deltaT)·ruido)` with
`tasaInteres = 0` and `ruido` the draw for that step and trajectory. -/
noncomputable def price (valorBase volD : ℝ) (noise : ℕ → ℝ) (numTrayectorias i : ℕ) :
    ℕ → ℝ
  | 0 => valorBase
  | t + 1 =>
    price valorBase volD noise numTrayectorias i t *
      Real.exp ((0 - 0.5 * volD * volD) * deltaT +
        volD * Real.sqrt deltaT * noise (t * numTrayectorias + i))

/-- The trajectory matrix `simulacionesArr`: `numTrayectorias` rows, row `i`
listing the prices of trajectory `i` at steps `0..pasosTiempo`. -/
noncomputable def simulate (valorBase volatilidad : ℝ) (pasosTiempo numTrayectorias : ℕ)
    (noise : ℕ → ℝ) : List (List ℝ) :=
  (List.range numTrayectorias).map fun i =>
    (List.range (pasosTiempo + 1)).map fun t =>
      price valorBase (volDiaria volatilidad) noise numTrayectorias i t

/-- Entry `(i, t)` of a trajectory matrix (`simulacionesArr[i][paso]`). -/
noncomputable def entry (m : List (List ℝ)) (i t : ℕ) : ℝ :=
  (m.getD i []).getD t 0

/-! ## Terminal-price risk summary (route.ts lines 126-132) -/

/-- `preciosFinales`: last column of the matrix (`fila[pasosTiempo]`). -/
noncomputable def preciosFinales (m : List (List ℝ)) (pasosTiempo : ℕ) : List ℝ :=
  m.map fun fila => fila.getD pasosTiempo 0

/-- `cambios`: relative terminal returns `(v − valorBase) / valorBase`. -/
noncomputable def cambios (m : List (List ℝ)) (valorBase : ℝ) (pasosTiempo : ℕ) : List ℝ :=
  (preciosFinales m pasosTiempo).map fun v => (v - valorBase) / valorBase

/-- `pRiesgo = percentile(cambios, 5)`. -/
noncomputable def pRiesgo (m : List (List ℝ)) (valorBase : ℝ) (pasosTiempo : ℕ) : Option ℝ :=
  percentile (cambios m valorBase pasosTiempo) 5

/-- `var_95 = valorBase * Math.abs(pRiesgo)`. -/
noncomputable def var95 (m : List (List ℝ)) (valorBase : ℝ) (pasosTiempo : ℕ) : Option ℝ :=
  (pRiesgo m valorBase pasosTiempo).map fun r => valorBase * |r|

/-- `var_percentaje = pRiesgo * 100`. -/
noncomputable def varPercentaje (m : List (List ℝ)) (valorBase : ℝ) (pasosTiempo : ℕ) :
    Option ℝ :=
  (pRiesgo m valorBase pasosTiempo).map fun r => r * 100

/-! ## Validation theorems -/

/-- C5: The request validator rejects exactly the out-of-range boundary
inputs the spec lists and accepts the in-range boundaries: `currentPrice
= 0` is rejected; `volatilidad = 200` is accepted while `201` is
rejected; `dias = 0` and `366` are rejected; `simulaciones = 99` and
`10001` are rejected (each tried with the remaining fields valid). -/
theorem validate_boundaries :
    validate (numsBody 0 20 30 1000) = .error .precioInvalid ∧
    validate (numsBody 100 200 30 1000) = .ok ⟨.num 100, .num 200, .num 30, .num 1000⟩ ∧
    validate (numsBody 100 201 30 1000) = .error .volatilidadInvalid ∧
    validate (numsBody 100 20 0 1000) = .error .diasInvalid ∧
    validate (numsBody 100 20 366 1000) = .error .diasInvalid ∧
    validate (numsBody 100 20 30 99) = .error .simulacionesInvalid ∧
    validate (numsBody 100 20 30 10001) = .error .simulacionesInvalid := by
  decide

/-- C6 counterexample: a request with `dias = 1.5` (= 3/2) and every other
field valid is NOT rejected by validation: `validate` returns `.ok` and
hands the non-integer `dias` to the engine, refuting the claim that any
non-integer `dias` is rejected as an InvalidParameter. -/
theorem validate_accepts_noninteger_dias :
    validate (numsBody 100 20 (3 / 2) 1000) =
      .ok ⟨.num 100, .num 20, .num (3 / 2), .num 1000⟩ := by
  norm_num [validate, numsBody, JSNum.le, JSNum.lt, JSNum.gt]

/-- C6 amended: validation checks only that the four fields are numbers
and lie in their ranges; integrality of `dias` and `simulaciones` is
never checked, so any in-range values — non-integers included — pass
validation and reach the engine. -/
theorem validate_range_only (p v d s : ℚ) (hp : 0 < p) (hv0 : 0 ≤ v) (hv1 : v ≤ 200)
    (hd0 : 1 ≤ d) (hd1 : d ≤ 365) (hs0 : 100 ≤ s) (hs1 : s ≤ 10000) :
    validate (numsBody p v d s) = .ok ⟨.num p, .num v, .num d, .num s⟩ := by
  have h1 : JSNum.le (.num p) (.num 0) = false := by
    simp [JSNum.le, decide_eq_false_iff_not]; linarith
  have h2 : JSNum.lt (.num v) (.num 0) = false := by
    simp [JSNum.lt, decide_eq_false_iff_not]; linarith
  have h3 : JSNum.gt (.num v) (.num 200) = false := by
    simp [JSNum.gt, decide_eq_false_iff_not]; linarith
  have h4 : JSNum.lt (.num d) (.num 1) = false := by
    simp [JSNum.lt, decide_eq_false_iff_not]; linarith
  have h5 : JSNum.gt (.num d) (.num 365) = false := by
    simp [JSNum.gt, decide_eq_false_iff_not]; linarith
  have h6 : JSNum.lt (.num s) (.num 100) = false := by
    simp [JSNum.lt, decide_eq_false_iff_not]; linarith
  have h7 : JSNum.gt (.num s) (.num 10000) = false := by
    simp [JSNum.gt, decide_eq_false_iff_not]; linarith
  simp [validate, numsBody, h1, h2, h3, h4, h5, h6, h7]

/-- C6 amended, witness at `dias = 3/2`, `simulaciones = 100.5`. -/
theorem validate_range_only_witness :
    validate (numsBody 100 20 (3 / 2) (201 / 2)) =
      .ok ⟨.num 100, .num 20, .num (3 / 2), .num (201 / 2)⟩ :=
  validate_range_only 100 20 (3 / 2) (201 / 2) (by norm_num) (by norm_num) (by norm_num)
    (by norm_num) (by norm_num) (by norm_num) (by norm_num)

/-- C7: validation checks run in the fixed order type check, then
`precio_actual`, then `volatilidad`, then `dias`, then `simulaciones`,
and only the first violated check's rejection is reported; in particular
a request with `precio_actual = 0` and `dias = 0` reports the
`precio_actual` violation. -/
theorem validate_first_error :
    (∀ b : RequestBody,
        (b.precio_actual.isNumber && b.volatilidad.isNumber && b.dias.isNumber &&
            b.simulaciones.isNumber) = false →
        validate b = .error .typeInvalid) ∧
    (∀ p v d s : ℚ,
        (p ≤ 0 → validate (numsBody p v d s) = .error .precioInvalid) ∧
        (0 < p → (v < 0 ∨ 200 < v) →
          validate (numsBody p v d s) = .error .volatilidadInvalid) ∧
        (0 < p → 0 ≤ v → v ≤ 200 → (d < 1 ∨ 365 < d) →
          validate (numsBody p v d s) = .error .diasInvalid) ∧
        (0 < p → 0 ≤ v → v ≤ 200 → 1 ≤ d → d ≤ 365 → (s < 100 ∨ 10000 < s) →
          validate (numsBody p v d s) = .error .simulacionesInvalid)) ∧
    validate (numsBody 0 20 0 1000) = .error .precioInvalid := by
  refine ⟨?_, ?_, by decide⟩
  · rintro ⟨pv, vv, dv, sv⟩ h
    cases pv <;> cases vv <;> cases dv <;> cases sv <;>
      simp_all [validate, JSVal.isNumber]
  · intro p v d s
    refine ⟨fun hp => ?_, fun hp hv => ?_, fun hp hv0 hv1 hd => ?_,
      fun hp hv0 hv1 hd0 hd1 hs => ?_⟩
    · simp [validate, numsBody, JSNum.le, hp]
    · have h1 : JSNum.le (.num p) (.num 0) = false := by
        simp [JSNum.le, decide_eq_false_iff_not]; linarith
      have h2 : (JSNum.lt (.num v) (.num 0) || JSNum.gt (.num v) (.num 200)) = true := by
        rcases hv with hv | hv <;> simp [JSNum.lt, JSNum.gt, hv]
      simp [validate, numsBody, h1, h2]
    · have h1 : JSNum.le (.num p) (.num 0) = false := by
        simp [JSNum.le, decide_eq_false_iff_not]; linarith
      have h2 : JSNum.lt (.num v) (.num 0) = false := by
        simp [JSNum.lt, decide_eq_false_iff_not]; linarith
      have h3 : JSNum.gt (.num v) (.num 200) = false := by
        simp [JSNum.gt, decide_eq_false_iff_not]; linarith
      have h4 : (JSNum.lt (.num d) (.num 1) || JSNum.gt (.num d) (.num 365)) = true := by
        rcases hd with hd | hd <;> simp [JSNum.lt, JSNum.gt, hd]
      simp [validate, numsBody, h1, h2, h3, h4]
    · have h1 : JSNum.le (.num p) (.num 0) = false := by
        simp [JSNum.le, decide_eq_false_iff_not]; linarith
      have h2 : JSNum.lt (.num v) (.num 0) = false := by
        simp [JSNum.lt, decide_eq_false_iff_not]; linarith
      have h3 : JSNum.gt (.num v) (.num 200) = false := by
        simp [JSNum.gt, decide_eq_false_iff_not]; linarith
      have h4 : JSNum.lt (.num d) (.num 1) = false := by
        simp [JSNum.lt, decide_eq_false_iff_not]; linarith
      have h5 : JSNum.gt (.num d) (.num 365) = false := by
        simp [JSNum.gt, decide_eq_false_iff_not]; linarith
      have h6 : (JSNum.lt (.num s) (.num 100) || JSNum.gt (.num s) (.num 10000)) = true := by
        rcases hs with hs | hs <;> simp [JSNum.lt, JSNum.gt, hs]
      simp [validate, numsBody, h1, h2, h3, h4, h5, h6]

/-- C7 witness: a non-number field reports the type violation even when
other fields are also invalid, and `precio_actual = 0` with `dias = 0`
reports the `precio_actual` violation. -/
theorem validate_first_error_witness :
    validate ⟨.other, .num (.num 300), .num (.num 0), .num (.num 99)⟩ =
      .error .typeInvalid ∧
    validate (numsBody 0 300 0 99) = .error .precioInvalid :=
  ⟨validate_first_error.1 ⟨.other, .num (.num 300), .num (.num 0), .num (.num 99)⟩
      (by decide),
    (validate_first_error.2.1 0 300 0 99).1 (by norm_num)⟩

/-- C10: a NaN body field passes the `typeof` check (NaN has number type),
every range comparison against NaN evaluates to false, and therefore a
request whose fields are each either NaN or an in-range number is
accepted by validation, so the engine runs with the NaN parameter
instead of a rejection being returned. -/
theorem nan_accepted :
    JSVal.isNumber (.num .nan) = true ∧
    (∀ q : ℚ, JSNum.le .nan (.num q) = false ∧ JSNum.lt .nan (.num q) = false ∧
        JSNum.gt .nan (.num q) = false) ∧
    (∀ p v d s : JSNum,
        (p = .nan ∨ ∃ q : ℚ, p = .num q ∧ 0 < q) →
        (v = .nan ∨ ∃ q : ℚ, v = .num q ∧ 0 ≤ q ∧ q ≤ 200) →
        (d = .nan ∨ ∃ q : ℚ, d = .num q ∧ 1 ≤ q ∧ q ≤ 365) →
        (s = .nan ∨ ∃ q : ℚ, s = .num q ∧ 100 ≤ q ∧ q ≤ 10000) →
        validate ⟨.num p, .num v, .num d, .num s⟩ = .ok ⟨p, v, d, s⟩) := by
  refine ⟨rfl, fun q => ⟨rfl, rfl, rfl⟩, ?_⟩
  intro p v d s hp hv hd hs
  have h1 : JSNum.le p (.num 0) = false := by
    rcases hp with h | ⟨q, rfl, hq⟩
    · subst h; rfl
    · simp [JSNum.le, decide_eq_false_iff_not]; linarith
  have h2 : (JSNum.lt v (.num 0) || JSNum.gt v (.num 200)) = false := by
    rcases hv with h | ⟨q, rfl, hq0, hq1⟩
    · subst h; rfl
    · simp [JSNum.lt, JSNum.gt, decide_eq_false_iff_not]
      constructor <;> linarith
  have h3 : (JSNum.lt d (.num 1) || JSNum.gt d (.num 365)) = false := by
    rcases hd with h | ⟨q, rfl, hq0, hq1⟩
    · subst h; rfl
    · simp [JSNum.lt, JSNum.gt, decide_eq_false_iff_not]
      constructor <;> linarith
  have h4 : (JSNum.lt s (.num 100) || JSNum.gt s (.num 10000)) = false := by
    rcases hs with h | ⟨q, rfl, hq0, hq1⟩
    · subst h; rfl
    · simp [JSNum.lt, JSNum.gt, decide_eq_false_iff_not]
      constructor <;> linarith
  simp [validate, h1, h2, h3, h4]

/-- C10 witness: `precio_actual = NaN` with the other fields valid is
accepted, the engine receiving NaN as the current price. -/
theorem nan_accepted_witness :
    validate ⟨.num .nan, .num (.num 20), .num (.num 30), .num (.num 1000)⟩ =
      .ok ⟨.nan, .num 20, .num 30, .num 1000⟩ :=
  nan_accepted.2.2 .nan (.num 20) (.num 30) (.num 1000) (Or.inl rfl)
    (Or.inr ⟨20, rfl, by norm_num, by norm_num⟩)
    (Or.inr ⟨30, rfl, by norm_num, by norm_num⟩)
    (Or.inr ⟨1000, rfl, by norm_num, by norm_num⟩)

/-! ## Statistics theorems -/

/-- Helper: `percentile` returns a value (never hits the NaN branch) on
every non-empty input. -/
theorem percentile_isSome_of_ne_nil (values : List α) (p : α) (h : values ≠ []) :
    (percentile values p).isSome = true := by
  cases values with
  | nil => exact absurd rfl h
  | cons a l =>
    rw [percentile]
    dsimp only
    split <;> rfl

omit [FloorRing α] in
/-- Helper: sorting is determined by the multiset of elements, so two
permuted lists have the same ascending sort. -/
theorem insertionSort_eq_of_perm {l l' : List α} (h : l.Perm l') :
    List.insertionSort (· ≤ ·) l = List.insertionSort (· ≤ ·) l' :=
  List.eq_of_perm_of_sorted
    ((List.perm_insertionSort _ l).trans (h.trans (List.perm_insertionSort _ l').symm))
    (List.sorted_insertionSort _ l) (List.sorted_insertionSort _ l')

/-- C3: `percentile` coincides with the spec's linear-interpolation
estimator (sort ascending, fractional rank `pos = (p/100)·(n−1)`, exact
order statistic when `floor pos = ceil pos`, otherwise interpolation
with weight `pos − floor pos`), and in particular
`percentile [1,2,3] 50 = 2` and `percentile [1,2,3,4] 50 = 2.5`. -/
theorem percentile_matches_spec :
    (∀ (values : List ℝ) (p : ℝ), percentile values p = percentileSpec values p) ∧
    percentile ([1, 2, 3] : List ℝ) 50 = some 2 ∧
    percentile ([1, 2, 3, 4] : List ℝ) 50 = some (5 / 2) := by
  refine ⟨fun values p => ?_, ?_, ?_⟩
  · cases values with
    | nil => rfl
    | cons a l =>
      rw [percentile, percentileSpec]
      simp only [List.length_insertionSort, List.isEmpty_cons, Bool.false_eq_true,
        if_false]
  · have hs : List.insertionSort (· ≤ ·) ([1, 2, 3] : List ℝ) = [1, 2, 3] := by
      norm_num [List.insertionSort, List.orderedInsert]
    rw [percentile]
    simp only [hs]
    norm_num [Int.floor_eq_iff, Int.ceil_eq_iff, List.getD]
  · have hs : List.insertionSort (· ≤ ·) ([1, 2, 3, 4] : List ℝ) = [1, 2, 3, 4] := by
      norm_num [List.insertionSort, List.orderedInsert]
    have hc : ⌈(3 : ℝ) / 2⌉ = 2 := by norm_num [Int.ceil_eq_iff]
    rw [percentile]
    simp only [hs]
    norm_num [Int.floor_eq_iff, hc, List.getD, show Int.toNat 2 = 2 from rfl]

/-- C8: on the empty column `percentile` returns the "undefined" marker
(`none`, modelling the returned NaN) instead of faulting, and on every
non-empty column it never hits that branch: it returns a value. -/
theorem percentile_empty_guard :
    (∀ p : ℝ, percentile ([] : List ℝ) p = none) ∧
    (∀ (values : List ℝ) (p : ℝ), values ≠ [] → (percentile values p).isSome = true) :=
  ⟨fun _ => rfl, fun values p h => percentile_isSome_of_ne_nil values p h⟩

/-- C8 witness: the guard at the empty list and a value at `[1]`. -/
theorem percentile_empty_guard_witness :
    percentile ([] : List ℝ) 5 = none ∧ (percentile ([1] : List ℝ) 5).isSome = true :=
  ⟨percentile_empty_guard.1 5, percentile_empty_guard.2 [1] 5 (by simp)⟩

/-- C9: `mean` and `percentile` are invariant under permutation of the
input column: permuting the list changes neither the mean nor any
percentile. -/
theorem mean_percentile_perm_invariant (l l' : List ℝ) (h : l.Perm l') :
    mean l = mean l' ∧ ∀ p : ℝ, percentile l p = percentile l' p := by
  constructor
  · unfold mean
    rw [h.sum_eq, h.length_eq]
  · intro p
    cases l with
    | nil =>
      have hl' : l' = [] := h.symm.eq_nil
      subst hl'
      rfl
    | cons a t =>
      cases l' with
      | nil => exact absurd h.eq_nil (by simp)
      | cons b t' =>
        rw [percentile, percentile]
        simp only [insertionSort_eq_of_perm h]

/-- C9 witness: at the concrete permutation `[1,2] ~ [2,1]`, with the
percentile instantiated at `p = 50`. -/
theorem mean_percentile_perm_invariant_witness :
    mean ([1, 2] : List ℝ) = mean [2, 1] ∧
      percentile ([1, 2] : List ℝ) 50 = percentile [2, 1] 50 :=
  ⟨(mean_percentile_perm_invariant [1, 2] [2, 1] (List.Perm.swap 2 1 [])).1,
    (mean_percentile_perm_invariant [1, 2] [2, 1] (List.Perm.swap 2 1 [])).2 50⟩

/-! ## Risk-summary theorems -/

/-- C4: for every non-empty trajectory matrix and positive current price,
the 5th percentile `pRiesgo` of terminal relative returns exists, the VaR
amount is `valorBase · |pRiesgo|` and hence non-negative regardless of the
sign of `pRiesgo`, and the VaR percentage is `pRiesgo · 100`, keeping the
sign of the percentile (negative exactly when the percentile is
negative). -/
theorem var95_nonneg_and_sign (m : List (List ℝ)) (valorBase : ℝ) (pasosTiempo : ℕ)
    (hP : 0 < valorBase) (hm : m ≠ []) :
    ∃ r : ℝ, pRiesgo m valorBase pasosTiempo = some r ∧
      var95 m valorBase pasosTiempo = some (valorBase * |r|) ∧
      0 ≤ valorBase * |r| ∧
      varPercentaje m valorBase pasosTiempo = some (r * 100) ∧
      (r * 100 < 0 ↔ r < 0) ∧ (0 < r * 100 ↔ 0 < r) := by
  have hne : cambios m valorBase pasosTiempo ≠ [] := by
    simp [cambios, preciosFinales, hm]
  have hsome : (pRiesgo m valorBase pasosTiempo).isSome = true :=
    percentile_isSome_of_ne_nil _ 5 hne
  obtain ⟨r, hr⟩ := Option.isSome_iff_exists.mp hsome
  refine ⟨r, hr, ?_, ?_, ?_, ?_, ?_⟩
  · simp [var95, hr]
  · exact mul_nonneg hP.le (abs_nonneg r)
  · simp [varPercentaje, hr]
  · constructor <;> intro h <;> linarith
  · constructor <;> intro h <;> linarith

/-- C4 witness: one trajectory `[100, 90]` with `valorBase = 100` after
one step. -/
theorem var95_nonneg_and_sign_witness :
    (0 : ℝ) < 100 ∧ ([[100, 90]] : List (List ℝ)) ≠ [] ∧
      ∃ r : ℝ, pRiesgo [[100, 90]] 100 1 = some r ∧
        var95 [[100, 90]] 100 1 = some (100 * |r|) ∧
        0 ≤ 100 * |r| ∧
        varPercentaje [[100, 90]] 100 1 = some (r * 100) ∧
        (r * 100 < 0 ↔ r < 0) ∧ (0 < r * 100 ↔ 0 < r) :=
  ⟨by norm_num, by simp,
    var95_nonneg_and_sign [[100, 90]] 100 1 (by norm_num) (by simp)⟩

/-! ## Path-simulator theorems -/

/-- Helper: a trajectory price stays strictly positive: it is the product
of a positive start and exponentials. -/
theorem price_pos (valorBase volD : ℝ) (noise : ℕ → ℝ) (numTrayectorias i : ℕ)
    (h : 0 < valorBase) : ∀ t, 0 < price valorBase volD noise numTrayectorias i t
  | 0 => h
  | t + 1 =>
    mul_pos (price_pos valorBase volD noise numTrayectorias i h t) (Real.exp_pos _)

/-- Helper: reading a mapped range at a valid index. -/
theorem getD_map_range {β : Type} (f : ℕ → β) (n i : ℕ) (d : β) (hi : i < n) :
    ((List.range n).map f).getD i d = f i := by
  rw [List.getD_eq_getElem _ _ (by simpa using hi)]
  simp

/-- Helper: entry `(i, t)` of the simulated matrix (for `i` a valid row and
`t ≤ pasosTiempo`) is the recursively defined trajectory price. -/
theorem entry_simulate (valorBase volatilidad : ℝ) (pasosTiempo numTrayectorias : ℕ)
    (noise : ℕ → ℝ) {i t : ℕ} (hi : i < numTrayectorias) (ht : t ≤ pasosTiempo) :
    entry (simulate valorBase volatilidad pasosTiempo numTrayectorias noise) i t =
      price valorBase (volDiaria volatilidad) noise numTrayectorias i t := by
  unfold entry simulate
  rw [getD_map_range _ _ _ _ hi, getD_map_range _ _ _ _ (by omega)]

/-- C1: for every valid set of parameters, the trajectory matrix has
exactly `pathCount` rows, each row has `horizonDays + 1` entries, every
entry is strictly positive, and entry 0 of every row equals the current
price exactly. -/
theorem simulate_shape (valorBase volatilidad : ℝ) (pasosTiempo numTrayectorias : ℕ)
    (noise : ℕ → ℝ) (hP : 0 < valorBase) (_hv0 : 0 ≤ volatilidad) (_hv1 : volatilidad ≤ 200)
    (_hd0 : 1 ≤ pasosTiempo) (_hd1 : pasosTiempo ≤ 365)
    (_hs0 : 100 ≤ numTrayectorias) (_hs1 : numTrayectorias ≤ 10000) :
    (simulate valorBase volatilidad pasosTiempo numTrayectorias noise).length =
        numTrayectorias ∧
    ∀ row ∈ simulate valorBase volatilidad pasosTiempo numTrayectorias noise,
      row.length = pasosTiempo + 1 ∧ (∀ x ∈ row, 0 < x) ∧ row.getD 0 0 = valorBase := by
  refine ⟨by simp [simulate], ?_⟩
  intro row hrow
  rw [simulate, List.mem_map] at hrow
  obtain ⟨i, hi, rfl⟩ := hrow
  refine ⟨by simp, ?_, ?_⟩
  · intro x hx
    rw [List.mem_map] at hx
    obtain ⟨t, ht, rfl⟩ := hx
    exact price_pos valorBase (volDiaria volatilidad) noise numTrayectorias i hP t
  · rw [List.getD_eq_getElem _ _ (by simp)]
    simp [List.getElem_map, List.getElem_range]
    rfl

/-- C1 witness: parameters `valorBase = 100`, `volatilidad = 20`,
`pasosTiempo = 1`, `numTrayectorias = 100`, zero noise. -/
theorem simulate_shape_witness :
    (simulate 100 20 1 100 (fun _ => 0)).length = 100 ∧
    ∀ row ∈ simulate 100 20 1 100 (fun _ => 0),
      row.length = 1 + 1 ∧ (∀ x ∈ row, 0 < x) ∧ row.getD 0 0 = 100 :=
  simulate_shape 100 20 1 100 (fun _ => 0) (by norm_num) (by norm_num) (by norm_num)
    (by norm_num) (by norm_num) (by norm_num) (by norm_num)

/-- C2: for every step `t = 1..pasosTiempo` and every trajectory
`i < numTrayectorias`, the simulated price satisfies
`price[t] = price[t−1] · exp((0 − 0.5·dailyVol²)·deltaT +
dailyVol·sqrt(deltaT)·z)` with `dailyVol = (volatilidad/100)/sqrt 252`,
`deltaT = 1/252`, the risk-free rate fixed at 0, and `z` the draw of
index `(t−1)·numTrayectorias + i`; moreover that index is fresh: distinct
(step, trajectory) pairs use distinct draws. -/
theorem simulate_step_recurrence (valorBase volatilidad : ℝ)
    (pasosTiempo numTrayectorias : ℕ) (noise : ℕ → ℝ) (i t : ℕ)
    (hi : i < numTrayectorias) (ht1 : 1 ≤ t) (ht2 : t ≤ pasosTiempo) :
    entry (simulate valorBase volatilidad pasosTiempo numTrayectorias noise) i t =
      entry (simulate valorBase volatilidad pasosTiempo numTrayectorias noise) i (t - 1) *
        Real.exp ((0 - 0.5 * (volatilidad / 100 / Real.sqrt 252) ^ 2) * (1 / 252) +
          volatilidad / 100 / Real.sqrt 252 * Real.sqrt (1 / 252) *
            noise ((t - 1) * numTrayectorias + i)) ∧
    (∀ t' i', 1 ≤ t' → i' < numTrayectorias → (t, i) ≠ (t', i') →
      (t - 1) * numTrayectorias + i ≠ (t' - 1) * numTrayectorias + i') := by
  constructor
  · obtain ⟨u, rfl⟩ : ∃ u, t = u + 1 := ⟨t - 1, by omega⟩
    rw [entry_simulate _ _ _ _ _ hi ht2, entry_simulate _ _ _ _ _ hi (by omega)]
    simp only [Nat.add_sub_cancel]
    rw [price]
    simp only [volDiaria, deltaT]
    congr 2
    ring
  · intro t' i' ht' hi' hne heq
    apply hne
    have hnT : 0 < numTrayectorias := Nat.lt_of_le_of_lt (Nat.zero_le i) hi
    have h1 : i = i' := by
      have hmod := congrArg (· % numTrayectorias) heq
      simpa [Nat.mul_add_mod_of_lt hi, Nat.mul_add_mod_of_lt hi'] using hmod
    subst h1
    have h2 := Nat.add_right_cancel heq
    have h3 := Nat.eq_of_mul_eq_mul_right hnT h2
    have h4 : t = t' := by omega
    simp [h4]

/-- C2 witness: parameters `valorBase = 100`, `volatilidad = 20`, one
step, 100 trajectories, zero noise, at trajectory `0`, step `1`. -/
theorem simulate_step_recurrence_witness :
    entry (simulate 100 20 1 100 (fun _ => 0)) 0 1 =
      entry (simulate 100 20 1 100 (fun _ => 0)) 0 (1 - 1) *
        Real.exp ((0 - 0.5 * ((20 : ℝ) / 100 / Real.sqrt 252) ^ 2) * (1 / 252) +
          (20 : ℝ) / 100 / Real.sqrt 252 * Real.sqrt (1 / 252) *
            (fun _ : ℕ => (0 : ℝ)) ((1 - 1) * 100 + 0)) ∧
    (∀ t' i', 1 ≤ t' → i' < 100 → ((1 : ℕ), (0 : ℕ)) ≠ (t', i') →
      (1 - 1) * 100 + 0 ≠ (t' - 1) * 100 + i') :=
  simulate_step_recurrence 100 20 1 100 (fun _ => 0) 0 1 (by norm_num) (by norm_num)
    (by norm_num)

end RiskSim
